import Mathlib

/-!
Shallow embedding of the drone battery-sizing optimizer (`main.py`).

The class `DroneOptimizer` holds fourteen real-valued constants set in
`__init__` and never mutated; we model them as the immutable structure
`Params`.  Its methods `objective`, `calculate_mass`,
`calculate_flight_time` and `constraints` are pure functions of the single
design variable `x` (battery capacity) and the parameter set; we embed them
as Lean functions over an arbitrary linear ordered field (instantiated at
`ℚ` for concrete evaluations).  The external SLSQP solver
(`scipy.optimize.minimize`) is modelled as an abstract function supplied to
`optimize`, receiving exactly the data the source passes to it: the
objective, the initial guess `20`, the box bounds and the list of
constraint closures.
-/

namespace Drone

/-- Parameter bundle fixed in `__init__` (main.py lines 5-34), in source
order: `C_frame`, `C_electronics`, `M_frame`, `M_electronics`, `k_battery`,
`Th`, `b`, `battery_energy_density`, `prop_efficiency`, `prop_count`,
`min_battery_capacity`, `max_battery_capacity`, `min_flight_time`,
`max_total_weight`. -/
structure Params (K : Type) where
  C_frame : K
  C_electronics : K
  M_frame : K
  M_electronics : K
  k_battery : K
  Th : K
  b : K
  battery_energy_density : K
  prop_efficiency : K
  prop_count : K
  min_battery_capacity : K
  max_battery_capacity : K
  min_flight_time : K
  max_total_weight : K

variable {K : Type} [LinearOrderedField K]

/-- Battery mass expression `self.k_battery * C_battery * self.Th +
self.k_battery * C_battery + self.b`, written inline in the source at
main.py lines 44, 49 and 85. -/
def M_battery (p : Params K) (x : K) : K :=
  p.k_battery * x * p.Th + p.k_battery * x + p.b

/-- `DroneOptimizer.calculate_mass` (main.py lines 42-45). -/
def calculate_mass (p : Params K) (x : K) : K :=
  p.M_frame + p.M_electronics + M_battery p x

/-- `power_factor = self.prop_count * (1/self.prop_efficiency)`
(main.py line 51). -/
def power_factor (p : Params K) : K :=
  p.prop_count * (1 / p.prop_efficiency)

/-- `DroneOptimizer.calculate_flight_time` (main.py lines 47-53). -/
def calculate_flight_time (p : Params K) (x : K) : K :=
  (p.battery_energy_density * M_battery p x) / (power_factor p * calculate_mass p x)

/-- `total_cost = self.C_frame + C_battery + self.C_electronics`
(main.py line 38, repeated at line 84). -/
def total_cost (p : Params K) (x : K) : K :=
  p.C_frame + x + p.C_electronics

/-- `DroneOptimizer.objective` (main.py lines 36-40). -/
def objective (p : Params K) (x : K) : K :=
  total_cost p x - 50 * calculate_flight_time p x

/-- `DroneOptimizer.constraints` (main.py lines 55-64): the list of four
inequality values, in source order. -/
def constraints (p : Params K) (x : K) : List K :=
  [ p.max_total_weight - calculate_mass p x,
    calculate_flight_time p x - p.min_flight_time,
    x - p.min_battery_capacity,
    p.max_battery_capacity - x ]

/-- A design point is feasible when every constraint value is ≥ 0 (the
SLSQP convention for constraints of type `ineq`, main.py line 69). -/
def feasible (p : Params K) (x : K) : Prop :=
  ∀ g ∈ constraints p x, 0 ≤ g

/-- The list of constraint closures built at main.py line 69:
`[{'type': 'ineq', 'fun': lambda x, i=i: self.constraints(x)[i]} for i in
range(4)]`.  The default argument `i=i` makes Python evaluate `i` when each
lambda is created, so the closure built at loop iteration `i` carries the
value `i`; the embedding mirrors this by mapping over `List.range 4`.
Indexing a Python list with an in-range index is total; `getD _ 0` is only
ever used at indices 0-3 of the four-element list. -/
def cons_funs (p : Params K) : List (K → K) :=
  (List.range 4).map (fun i => fun x => (constraints p x).getD i 0)

/-- Outcome of the external `scipy.optimize.minimize` call: the fields of
the result object that main.py reads (`success`, `x[0]`, `message`). -/
structure SolverOutput (K : Type) where
  success : Bool
  x : K
  message : String

/-- The two shapes of dictionary returned by `DroneOptimizer.optimize`
(main.py lines 87-94 and 96-99): the optimal record with its five numeric
fields in source order, or the failure record with the solver message. -/
inductive OptimizeResult (K : Type) where
  | optimal (battery_capacity battery_mass total_mass flight_time cost : K)
  | notFeasible (message : String)
deriving DecidableEq

/-- Result-reporting tail of `DroneOptimizer.optimize` (main.py lines
80-99): on `result.success` recompute the derived quantities from
`result.x` using the same inline formulas the source repeats; otherwise
return the failure record carrying `result.message`. -/
def report (p : Params K) (res : SolverOutput K) : OptimizeResult K :=
  if res.success then
    OptimizeResult.optimal res.x
      (p.k_battery * res.x * p.Th + p.k_battery * res.x + p.b)
      (calculate_mass p res.x)
      (calculate_flight_time p res.x)
      (p.C_frame + res.x + p.C_electronics)
  else
    OptimizeResult.notFeasible res.message

/-- `DroneOptimizer.optimize` (main.py lines 66-99).  The external SLSQP
solver is abstracted as a function `solver` receiving exactly what the
source passes to `minimize`: the objective, the fixed initial guess
`x0 = [20]` (line 67), the box bounds list (line 68) and the constraint
closures (line 69). -/
def optimize (p : Params K)
    (solver : (K → K) → K → List (K × K) → List (K → K) → SolverOutput K) :
    OptimizeResult K :=
  report p (solver (objective p) 20
    [(p.min_battery_capacity, p.max_battery_capacity)] (cons_funs p))

/-- The method call viewed with explicit object state: it returns its
result together with the state of the optimizer after the call.  The body
of `optimize` contains no assignment to `self`, so the post-state is the
unchanged parameter set. -/
def optimize_call (p : Params K)
    (solver : (K → K) → K → List (K × K) → List (K → K) → SolverOutput K) :
    OptimizeResult K × Params K :=
  (optimize p solver, p)

/-- Two successive calls of `optimize()` on the same object: the second
call runs on the object state left by the first. -/
def run_twice (p : Params K)
    (solver : (K → K) → K → List (K × K) → List (K → K) → SolverOutput K) :
    OptimizeResult K × OptimizeResult K :=
  ((optimize_call p solver).1, (optimize_call (optimize_call p solver).2 solver).1)

/-- Validity of a parameter set as the claims put it: positive masses,
costs, battery-mass coefficients and efficiencies, and ordered capacity
bounds. -/
abbrev ValidParams (p : Params K) : Prop :=
  0 < p.C_frame ∧ 0 < p.C_electronics ∧ 0 < p.M_frame ∧ 0 < p.M_electronics ∧
  0 < p.k_battery ∧ 0 < p.Th ∧ 0 < p.b ∧ 0 < p.battery_energy_density ∧
  0 < p.prop_efficiency ∧ 0 < p.prop_count ∧
  p.min_battery_capacity ≤ p.max_battery_capacity

/-- Checked division: Python float division `a / d` raises
`ZeroDivisionError` exactly when `d == 0`. -/
def cdiv (a d : K) : Option K :=
  if d = 0 then none else some (a / d)

/-- `calculate_flight_time` with every division checked: line 51 divides by
`self.prop_efficiency`, line 52 divides by `power_factor * total_mass`;
`calculate_mass` performs no division. -/
def calculate_flight_timeChk (p : Params K) (x : K) : Option K :=
  (cdiv 1 p.prop_efficiency).bind (fun inv =>
    cdiv (p.battery_energy_density * M_battery p x)
      ((p.prop_count * inv) * calculate_mass p x))

/-- `objective` with every division checked: the only division is inside
`calculate_flight_time` (line 39). -/
def objectiveChk (p : Params K) (x : K) : Option K :=
  (calculate_flight_timeChk p x).map (fun ft => total_cost p x - 50 * ft)

/-- `constraints` with every division checked: the only division is inside
`calculate_flight_time` (line 58). -/
def constraintsChk (p : Params K) (x : K) : Option (List K) :=
  (calculate_flight_timeChk p x).map (fun ft =>
    [ p.max_total_weight - calculate_mass p x,
      ft - p.min_flight_time,
      x - p.min_battery_capacity,
      p.max_battery_capacity - x ])

/-- The example constants of main.py lines 103-118 as exact rationals. -/
def pEx : Params ℚ :=
  ⟨1000, 500, 2, 1, 1/10, 101/100, 1/10, 250, 4/5, 4, 16, 32, 10, 10⟩

/-- A finite parameter assignment with `prop_efficiency = 0` (all other
fields 1): evaluating `1/self.prop_efficiency` divides by zero although the
total mass is nonzero. -/
def p5bad : Params ℚ := ⟨1, 1, 1, 1, 1, 1, 1, 1, 0, 1, 1, 1, 1, 1⟩

/-- All-ones parameter assignment with nonzero efficiency and propeller
count. -/
def p5w : Params ℚ := ⟨1, 1, 1, 1, 1, 1, 1, 1, 1, 1, 1, 1, 1, 1⟩

/-- A parameter set that is valid in the claimed sense (every field
positive, bounds ordered) yet has a negative capacity lower bound. -/
def p6bad : Params ℚ := ⟨1, 1, 1, 1, 1, 1, 1, 1, 1, 1, -100, 0, 1, 1⟩

/-- A parameter set with positive energy density whose flight time has a
pole between `x = -3` and `x = -1`: `flightTime(x) = x / (2 + x)` here. -/
def p7bad : Params ℚ := ⟨1, 1, 1, 1, 1, 0, 0, 1, 1, 1, 1, 1, 1, 1⟩

/-- Claim C1: for every parameter set and every design variable `x`,
`objective(x) = totalCost(x) - 50 * flightTime(x)` with
`totalCost(x) = frameCost + electronicsCost + x` (battery capacity at face
value as its cost) and fixed trade-off weight 50. -/
theorem c1_objective_formula (p : Params K) (x : K) :
    total_cost p x = p.C_frame + p.C_electronics + x ∧
    objective p x = total_cost p x - 50 * calculate_flight_time p x := by
  constructor
  · simp only [total_cost]; ring
  · rfl

/-- Claim C2: `flightTime(x) = energyDensity * batteryMass(x) /
(powerFactor * totalMass(x))` with `powerFactor = propCount /
propEfficiency`, where `batteryMass` and `totalMass` are the
physical-model functions. -/
theorem c2_flight_time_formula (p : Params K) (x : K) :
    power_factor p = p.prop_count / p.prop_efficiency ∧
    calculate_flight_time p x =
      p.battery_energy_density * M_battery p x /
        ((p.prop_count / p.prop_efficiency) * calculate_mass p x) := by
  have hpf : power_factor p = p.prop_count / p.prop_efficiency := by
    simp only [power_factor, mul_one_div]
  exact ⟨hpf, by rw [calculate_flight_time, hpf]⟩

/-- Claim C3: `batteryMass(x) = k_battery * x * Th + k_battery * x + b` and
`totalMass(x) = frameMass + electronicsMass + batteryMass(x)`. -/
theorem c3_mass_formulas (p : Params K) (x : K) :
    M_battery p x = p.k_battery * x * p.Th + p.k_battery * x + p.b ∧
    calculate_mass p x = p.M_frame + p.M_electronics + M_battery p x :=
  ⟨rfl, rfl⟩

/-- Claim C4: `constraints(x)` is exactly the four values
`[maxTotalWeight - totalMass(x), flightTime(x) - minFlightTime,
x - minBatteryCapacity, maxBatteryCapacity - x]` in this order; a point is
feasible exactly when each of the four is ≥ 0 (non-strict); and at
`x = minBatteryCapacity` the third constraint evaluates to exactly 0, which
satisfies the non-strict inequality. -/
theorem c4_constraint_set (p : Params K) (x : K) :
    constraints p x =
      [ p.max_total_weight - calculate_mass p x,
        calculate_flight_time p x - p.min_flight_time,
        x - p.min_battery_capacity,
        p.max_battery_capacity - x ] ∧
    (feasible p x ↔
      0 ≤ p.max_total_weight - calculate_mass p x ∧
      0 ≤ calculate_flight_time p x - p.min_flight_time ∧
      0 ≤ x - p.min_battery_capacity ∧
      0 ≤ p.max_battery_capacity - x) ∧
    (constraints p p.min_battery_capacity).getD 2 1 = 0 ∧
    0 ≤ (constraints p p.min_battery_capacity).getD 2 1 := by
  refine ⟨rfl, ?_, ?_, ?_⟩
  · simp [feasible, constraints]
  · simp [constraints]
  · simp [constraints]

/-- Claim C8: `optimize()` returns exactly one of two shapes: on solver
success, the optimal record whose five fields are recomputed from the
solver's `x` by the model formulas; on failure, the failure record carrying
the solver's message verbatim. -/
theorem c8_result_shape (p : Params K)
    (solver : (K → K) → K → List (K × K) → List (K → K) → SolverOutput K) :
    optimize p solver =
      (fun res =>
        if res.success then
          OptimizeResult.optimal res.x (M_battery p res.x)
            (calculate_mass p res.x) (calculate_flight_time p res.x)
            (total_cost p res.x)
        else OptimizeResult.notFeasible res.message)
      (solver (objective p) 20
        [(p.min_battery_capacity, p.max_battery_capacity)] (cons_funs p)) := by
  simp only [optimize, report, M_battery, total_cost]

/-- Claim C9: the `i`-th constraint closure handed to the solver (built at
main.py line 69 with the default-argument binding `i=i`) is extensionally
the function `x ↦ constraints(x)[i]`: the four passed closures are the four
distinct inequalities in their stated order, not four copies of the last
one. -/
theorem c9_closure_capture (p : Params K) :
    cons_funs p =
      [ fun x => p.max_total_weight - calculate_mass p x,
        fun x => calculate_flight_time p x - p.min_flight_time,
        fun x => x - p.min_battery_capacity,
        fun x => p.max_battery_capacity - x ] := rfl

/-- Claim C10: calling `optimize()` twice on the same unchanged parameter
set (initial guess fixed at 20) yields the same result both times; the
first call leaves the object state unchanged, so there is no hidden state
between the runs. -/
theorem c10_deterministic (p : Params K)
    (solver : (K → K) → K → List (K × K) → List (K → K) → SolverOutput K) :
    (optimize_call p solver).2 = p ∧
    (run_twice p solver).1 = (run_twice p solver).2 :=
  ⟨rfl, rfl⟩

/-- Claim C5 fails as stated: at the finite parameter assignment `p5bad`
(all fields 1 except `prop_efficiency = 0`) and `x = 1`, evaluating
`calculate_flight_time` divides by zero at `1/self.prop_efficiency`
although `totalMass(x) = 5 ≠ 0`. -/
theorem c5_counterexample :
    calculate_flight_timeChk p5bad 1 = none ∧ calculate_mass p5bad 1 ≠ 0 := by
  constructor
  · norm_num [calculate_flight_timeChk, cdiv, p5bad]
  · norm_num [calculate_mass, M_battery, p5bad]

/-- Claim C5 amended: for parameter assignments with nonzero
`prop_efficiency` and nonzero `prop_count`, evaluating
`calculate_flight_time`, `objective` and `constraints` hits a division by
zero exactly when `totalMass(x) = 0` (and `calculate_mass` itself performs
no division at all). -/
theorem c5_division_totality (p : Params K) (x : K)
    (hpe : p.prop_efficiency ≠ 0) (hpc : p.prop_count ≠ 0) :
    (calculate_flight_timeChk p x = none ↔ calculate_mass p x = 0) ∧
    (objectiveChk p x = none ↔ calculate_mass p x = 0) ∧
    (constraintsChk p x = none ↔ calculate_mass p x = 0) := by
  have hperc : p.prop_count * (1 / p.prop_efficiency) ≠ 0 :=
    mul_ne_zero hpc (one_div_ne_zero hpe)
  have hmain : calculate_flight_timeChk p x = none ↔ calculate_mass p x = 0 := by
    simp only [calculate_flight_timeChk, cdiv, if_neg hpe, Option.some_bind]
    by_cases hm : calculate_mass p x = 0
    · simp [hm]
    · have hne : p.prop_count * (1 / p.prop_efficiency) * calculate_mass p x ≠ 0 :=
        mul_ne_zero hperc hm
      rw [if_neg hne]
      simp [hm]
  refine ⟨hmain, ?_, ?_⟩
  · rw [objectiveChk, Option.map_eq_none']
    exact hmain
  · rw [constraintsChk, Option.map_eq_none']
    exact hmain

/-- Witness for the amended C5: at the all-ones parameters the hypotheses
hold and all three checked evaluations succeed. -/
theorem c5_division_totality_witness :
    (p5w.prop_efficiency ≠ 0 ∧ p5w.prop_count ≠ 0) ∧
    ((calculate_flight_timeChk p5w 1 = none ↔ calculate_mass p5w 1 = 0) ∧
     (objectiveChk p5w 1 = none ↔ calculate_mass p5w 1 = 0) ∧
     (constraintsChk p5w 1 = none ↔ calculate_mass p5w 1 = 0)) :=
  ⟨⟨by simp [p5w], by simp [p5w]⟩,
    c5_division_totality p5w 1 (by simp [p5w]) (by simp [p5w])⟩

/-- Claim C6 fails as stated: `p6bad` has every mass, cost, coefficient and
efficiency positive and ordered capacity bounds, yet at
`x = -100 ∈ [min, max]` the total mass is `-197 < 0`. -/
theorem c6_counterexample :
    ValidParams p6bad ∧
    p6bad.min_battery_capacity ≤ -100 ∧
    (-100 : ℚ) ≤ p6bad.max_battery_capacity ∧
    ¬ 0 < calculate_mass p6bad (-100) := by
  refine ⟨?_, ?_, ?_, ?_⟩
  · norm_num [ValidParams, p6bad]
  · norm_num [p6bad]
  · norm_num [p6bad]
  · norm_num [calculate_mass, M_battery, p6bad]

/-- Claim C6 amended: for every valid parameter set whose capacity lower
bound is additionally nonnegative, `totalMass(x) > 0` for every `x` in
`[minBatteryCapacity, maxBatteryCapacity]`. -/
theorem c6_total_mass_pos (p : Params K) (x : K) (hv : ValidParams p)
    (h0 : 0 ≤ p.min_battery_capacity)
    (hlo : p.min_battery_capacity ≤ x) (hhi : x ≤ p.max_battery_capacity) :
    0 < calculate_mass p x := by
  obtain ⟨-, -, hmf, hme, hk, hTh, hb, -, -, -, -⟩ := hv
  have hx : 0 ≤ x := le_trans h0 hlo
  have h1 : 0 ≤ p.k_battery * x * p.Th :=
    mul_nonneg (mul_nonneg hk.le hx) hTh.le
  have h2 : 0 ≤ p.k_battery * x := mul_nonneg hk.le hx
  simp only [calculate_mass, M_battery]
  linarith

/-- Witness for the amended C6: the example constants are valid with
nonnegative lower bound, and at `x = 16` the total mass is positive. -/
theorem c6_total_mass_pos_witness :
    (ValidParams pEx ∧ 0 ≤ pEx.min_battery_capacity ∧
      pEx.min_battery_capacity ≤ 16 ∧ (16 : ℚ) ≤ pEx.max_battery_capacity) ∧
    0 < calculate_mass pEx 16 :=
  ⟨⟨by norm_num [ValidParams, pEx], by norm_num [pEx], by norm_num [pEx],
      by norm_num [pEx]⟩,
    c6_total_mass_pos pEx 16 (by norm_num [ValidParams, pEx])
      (by norm_num [pEx]) (by norm_num [pEx]) (by norm_num [pEx])⟩

/-- Claim C7 fails as stated: `p7bad` has positive energy density (indeed
every field nonnegative), `flightTime(x) = x / (2 + x)`, and both `x = -3`
and `x = -1` have nonzero denominators, yet
`flightTime(-3) = 3 > -1 = flightTime(-1)`. -/
theorem c7_counterexample :
    0 < p7bad.battery_energy_density ∧
    (-3 : ℚ) ≤ -1 ∧
    power_factor p7bad * calculate_mass p7bad (-3) ≠ 0 ∧
    power_factor p7bad * calculate_mass p7bad (-1) ≠ 0 ∧
    calculate_flight_time p7bad (-1) < calculate_flight_time p7bad (-3) := by
  refine ⟨?_, ?_, ?_, ?_, ?_⟩
  · norm_num [p7bad]
  · norm_num
  · norm_num [power_factor, calculate_mass, M_battery, p7bad]
  · norm_num [power_factor, calculate_mass, M_battery, p7bad]
  · norm_num [calculate_flight_time, power_factor, calculate_mass, M_battery, p7bad]

/-- Claim C7 amended: holding the parameters fixed, flight time is
non-decreasing in capacity between any two points at which the total mass
is positive, provided the energy density, propeller count and efficiency
are positive, the battery-mass slope `k_battery * (Th + 1)` is nonnegative
and the capacity-independent mass `M_frame + M_electronics` is
nonnegative. -/
theorem c7_flight_time_monotone (p : Params K) (x1 x2 : K)
    (hE : 0 < p.battery_energy_density)
    (hpc : 0 < p.prop_count) (hpe : 0 < p.prop_efficiency)
    (hk : 0 ≤ p.k_battery * (p.Th + 1))
    (hM0 : 0 ≤ p.M_frame + p.M_electronics)
    (h1 : 0 < calculate_mass p x1) (h2 : 0 < calculate_mass p x2)
    (hx : x1 ≤ x2) :
    calculate_flight_time p x1 ≤ calculate_flight_time p x2 := by
  have hpf : 0 < power_factor p :=
    mul_pos hpc (one_div_pos.mpr hpe)
  rw [calculate_flight_time, calculate_flight_time,
    div_le_div_iff₀ (mul_pos hpf h1) (mul_pos hpf h2)]
  have key : p.battery_energy_density * M_battery p x2 *
        (power_factor p * calculate_mass p x1) -
      p.battery_energy_density * M_battery p x1 *
        (power_factor p * calculate_mass p x2) =
      p.battery_energy_density * power_factor p *
        (p.M_frame + p.M_electronics) *
        (p.k_battery * (p.Th + 1) * (x2 - x1)) := by
    simp only [M_battery, calculate_mass]
    ring
  have hnn : 0 ≤ p.battery_energy_density * power_factor p *
      (p.M_frame + p.M_electronics) *
      (p.k_battery * (p.Th + 1) * (x2 - x1)) :=
    mul_nonneg (mul_nonneg (mul_nonneg hE.le hpf.le) hM0)
      (mul_nonneg hk (sub_nonneg.mpr hx))
  linarith

/-- Witness for the amended C7: at the example constants the hypotheses
hold for `x1 = 16 ≤ 20 = x2` and the flight time is indeed
non-decreasing. -/
theorem c7_flight_time_monotone_witness :
    (0 < pEx.battery_energy_density ∧ 0 < pEx.prop_count ∧
      0 < pEx.prop_efficiency ∧ 0 ≤ pEx.k_battery * (pEx.Th + 1) ∧
      0 ≤ pEx.M_frame + pEx.M_electronics ∧
      0 < calculate_mass pEx 16 ∧ 0 < calculate_mass pEx 20 ∧
      (16 : ℚ) ≤ 20) ∧
    calculate_flight_time pEx 16 ≤ calculate_flight_time pEx 20 :=
  ⟨⟨by norm_num [pEx], by norm_num [pEx], by norm_num [pEx],
      by norm_num [pEx], by norm_num [pEx],
      by norm_num [calculate_mass, M_battery, pEx],
      by norm_num [calculate_mass, M_battery, pEx], by norm_num⟩,
    c7_flight_time_monotone pEx 16 20 (by norm_num [pEx]) (by norm_num [pEx])
      (by norm_num [pEx]) (by norm_num [pEx]) (by norm_num [pEx])
      (by norm_num [calculate_mass, M_battery, pEx])
      (by norm_num [calculate_mass, M_battery, pEx]) (by norm_num)⟩

end Drone
